import Mathlib

/-!
Verification of `current_time_ms` from `src/native/timer.c`.

The C source is:

  long current_time_ms() {
      struct timespec ts;
      clock_gettime(CLOCK_REALTIME, &ts);
      return (ts.tv_sec * 1000) + (ts.tv_nsec / 1000000);
  }

We embed the function shallowly: the clock reading delivered by
`clock_gettime` is a `Timespec` record with integer fields `tv_sec` and
`tv_nsec`, and the C integer division `/` (which truncates toward zero)
is `Int.tdiv`.  The call itself is modelled explicitly where a claim
needs it: `ClockReadResult` carries the return code that the C code
ignores, and `ProcState` carries the whole caller-visible process state
for the frame and determinism claims.
-/

namespace PHPX.Timer

/-- The POSIX `struct timespec` buffer filled by `clock_gettime`:
a seconds component and a nanoseconds component, both signed integers. -/
structure Timespec where
  tv_sec : Int
  tv_nsec : Int
deriving DecidableEq, Repr

/-- A well-formed clock reading: `clock_gettime` documents that the
nanoseconds field of a successful read lies in `[0, 10^9)`. -/
def Timespec.valid (ts : Timespec) : Prop :=
  0 ≤ ts.tv_nsec ∧ ts.tv_nsec < 1000000000

instance (ts : Timespec) : Decidable ts.valid := by
  unfold Timespec.valid; infer_instance

/-- `current_time_ms` from `src/native/timer.c`, as a function of the
clock reading it obtains: `ts.tv_sec * 1000 + ts.tv_nsec / 1000000`,
where C division of signed integers truncates toward zero (`Int.tdiv`). -/
def current_time_ms (ts : Timespec) : Int :=
  ts.tv_sec * 1000 + ts.tv_nsec.tdiv 1000000

/-- The outcome of the `clock_gettime(CLOCK_REALTIME, &ts)` call: the
`int` return code (0 on success, -1 on failure) together with whatever
the call left in the caller's `timespec` buffer. -/
structure ClockReadResult where
  retcode : Int
  buf : Timespec
deriving DecidableEq, Repr

/-- `current_time_ms` as a function of the full outcome of the clock
read.  The C code never inspects the return code: it computes its
result from the buffer alone. -/
def current_time_ms_sys (res : ClockReadResult) : Int :=
  current_time_ms res.buf

/-- Caller-visible process state: the realtime clock (the only state the
function reads) together with arbitrary other state `rest`. -/
structure ProcState (α : Type) where
  clock : Timespec
  rest : α

/-- `current_time_ms` as a state transformer on the process state: the
body reads the clock into a local buffer and returns an arithmetic
expression over that buffer; it writes nothing outside the local. -/
def current_time_ms_run {α : Type} (s : ProcState α) : Int × ProcState α :=
  (current_time_ms s.clock, s)

/-- Smallest value of a signed 64-bit integer, `-2^63`. -/
def int64Min : Int := -9223372036854775808

/-- Largest value of a signed 64-bit integer, `2^63 - 1`. -/
def int64Max : Int := 9223372036854775807

/-- `x` is representable as a signed 64-bit integer. -/
def inInt64 (x : Int) : Prop := int64Min ≤ x ∧ x ≤ int64Max

instance (x : Int) : Decidable (inInt64 x) := by
  unfold inInt64; infer_instance

/-- For a nanoseconds field in `[0, 10^9)`, the truncating division by
`10^6` agrees with Euclidean division and lands in `[0, 999]`. -/
lemma tdiv_millis_eq_ediv {n : Int} (h0 : 0 ≤ n) :
    n.tdiv 1000000 = n / 1000000 :=
  Int.tdiv_eq_ediv h0 (by norm_num)

lemma tdiv_millis_bounds {n : Int} (h0 : 0 ≤ n) (h1 : n < 1000000000) :
    0 ≤ n.tdiv 1000000 ∧ n.tdiv 1000000 ≤ 999 := by
  rw [tdiv_millis_eq_ediv h0]
  omega

/-- C1: for every clock reading with `0 ≤ ns < 10^9`, the function
returns `sec * 1000 + ns / 10^6` with truncating integer division, and
this value equals `⌊(sec + ns / 10^9) * 1000⌋`, the floor of the number
of seconds since the epoch times 1000. -/
theorem current_time_ms_formula (sec ns : Int)
    (h0 : 0 ≤ ns) (h1 : ns < 1000000000) :
    current_time_ms ⟨sec, ns⟩ = sec * 1000 + ns.tdiv 1000000 ∧
    current_time_ms ⟨sec, ns⟩ =
      ⌊(((sec : ℚ) + (ns : ℚ) / 1000000000) * 1000)⌋ := by
  refine ⟨rfl, ?_⟩
  have hq : (((sec : ℚ) + (ns : ℚ) / 1000000000) * 1000)
      = ((sec * 1000 : ℤ) : ℚ) + (ns : ℚ) / ((1000000 : ℕ) : ℚ) := by
    push_cast
    ring
  rw [hq, Int.floor_int_add, Rat.floor_intCast_div_natCast]
  show sec * 1000 + ns.tdiv 1000000 = sec * 1000 + ns / ((1000000 : ℕ) : ℤ)
  rw [tdiv_millis_eq_ediv h0]
  norm_num

theorem current_time_ms_formula_witness :
    (0 : Int) ≤ 500000000 ∧ (500000000 : Int) < 1000000000 ∧
    (current_time_ms ⟨1700000000, 500000000⟩ =
        1700000000 * 1000 + (500000000 : Int).tdiv 1000000 ∧
      current_time_ms ⟨1700000000, 500000000⟩ =
        ⌊((((1700000000 : Int) : ℚ) + ((500000000 : Int) : ℚ) / 1000000000) * 1000)⌋) :=
  ⟨by decide, by decide,
    current_time_ms_formula 1700000000 500000000 (by decide) (by decide)⟩

/-- C2: the function surfaces no error: its result never depends on the
return code of the clock-read call, and for every outcome of that call
(success or failure) it returns the value computed from whatever the
call left in the output buffer. -/
theorem current_time_ms_ignores_retcode (rc1 rc2 : Int) (ts : Timespec) :
    current_time_ms_sys ⟨rc1, ts⟩ = current_time_ms_sys ⟨rc2, ts⟩ ∧
    current_time_ms_sys ⟨rc1, ts⟩ = current_time_ms ts :=
  ⟨rfl, rfl⟩

/-- C3 counterexample: the clock reading with `tv_sec = 2^62` and
`tv_nsec = 0` is a well-formed `timespec` value, yet
`tv_sec * 1000 = 2^62 * 1000` is not representable as a signed 64-bit
integer, so the computation as claimed overflows there. -/
theorem current_time_ms_overflow_counterexample :
    (Timespec.valid ⟨4611686018427387904, 0⟩) ∧
    ¬ inInt64 (current_time_ms ⟨4611686018427387904, 0⟩) := by
  decide

/-- C3 (amended): for every well-formed clock reading whose seconds
component lies in `[-9223372036854775, 9223372036854774]` (a range
covering all realtime clock values for hundreds of millions of years
around the epoch), both the intermediate product `tv_sec * 1000` and the
final result are representable as signed 64-bit integers, so the
computation does not overflow. -/
theorem current_time_ms_no_overflow (ts : Timespec) (hv : ts.valid)
    (hlo : -9223372036854775 ≤ ts.tv_sec)
    (hhi : ts.tv_sec ≤ 9223372036854774) :
    inInt64 (ts.tv_sec * 1000) ∧ inInt64 (current_time_ms ts) := by
  obtain ⟨h0, h1⟩ := hv
  have hb := tdiv_millis_bounds h0 h1
  unfold current_time_ms inInt64 int64Min int64Max
  omega

theorem current_time_ms_no_overflow_witness :
    (Timespec.valid ⟨1700000000, 500000000⟩) ∧
    (-9223372036854775 : Int) ≤ 1700000000 ∧
    (1700000000 : Int) ≤ 9223372036854774 ∧
    (inInt64 ((1700000000 : Int) * 1000) ∧
      inInt64 (current_time_ms ⟨1700000000, 500000000⟩)) :=
  ⟨by decide, by decide, by decide,
    current_time_ms_no_overflow ⟨1700000000, 500000000⟩
      (by decide) (by decide) (by decide)⟩

/-- C4: on the clock reading 1,700,000,000 seconds and 500,000,000
nanoseconds, the function returns exactly 1700000000500. -/
theorem current_time_ms_concrete :
    current_time_ms ⟨1700000000, 500000000⟩ = 1700000000500 := by
  decide

/-- C5: with `tv_nsec = 999999999` the millisecond contribution
truncates to 999, not 1000, and the function returns
`tv_sec * 1000 + 999` for every seconds component. -/
theorem current_time_ms_truncates (sec : Int) :
    (999999999 : Int).tdiv 1000000 = 999 ∧
    current_time_ms ⟨sec, 999999999⟩ = sec * 1000 + 999 := by
  refine ⟨by decide, ?_⟩
  show sec * 1000 + (999999999 : Int).tdiv 1000000 = sec * 1000 + 999
  norm_num [show (999999999 : Int).tdiv 1000000 = 999 from by decide]

/-- C6: for every well-formed clock reading with a nonnegative seconds
component, the returned millisecond count divided by 1000 recovers the
seconds component exactly. -/
theorem current_time_ms_div_1000 (ts : Timespec)
    (hsec : 0 ≤ ts.tv_sec) (hv : ts.valid) :
    current_time_ms ts / 1000 = ts.tv_sec := by
  obtain ⟨h0, h1⟩ := hv
  have hb := tdiv_millis_bounds h0 h1
  unfold current_time_ms
  omega

theorem current_time_ms_div_1000_witness :
    (0 : Int) ≤ 1700000000 ∧ (Timespec.valid ⟨1700000000, 500000000⟩) ∧
    current_time_ms ⟨1700000000, 500000000⟩ / 1000 = 1700000000 :=
  ⟨by decide, by decide,
    current_time_ms_div_1000 ⟨1700000000, 500000000⟩ (by decide) (by decide)⟩

/-- C7: the conversion from clock reading to milliseconds is monotone in
the lexicographic order on `(tv_sec, tv_nsec)`: if the clock did not go
backward between two well-formed readings, the second timestamp is at
least the first. -/
theorem current_time_ms_monotone (ts1 ts2 : Timespec)
    (hv1 : ts1.valid) (hv2 : ts2.valid)
    (hle : ts1.tv_sec < ts2.tv_sec ∨
      (ts1.tv_sec = ts2.tv_sec ∧ ts1.tv_nsec ≤ ts2.tv_nsec)) :
    current_time_ms ts1 ≤ current_time_ms ts2 := by
  obtain ⟨h10, h11⟩ := hv1
  obtain ⟨h20, h21⟩ := hv2
  unfold current_time_ms
  rw [tdiv_millis_eq_ediv h10, tdiv_millis_eq_ediv h20]
  omega

theorem current_time_ms_monotone_witness :
    (Timespec.valid ⟨100, 999999999⟩) ∧ (Timespec.valid ⟨101, 0⟩) ∧
    ((100 : Int) < 101 ∨ ((100 : Int) = 101 ∧ (999999999 : Int) ≤ 0)) ∧
    current_time_ms ⟨100, 999999999⟩ ≤ current_time_ms ⟨101, 0⟩ :=
  ⟨by decide, by decide, Or.inl (by decide),
    current_time_ms_monotone ⟨100, 999999999⟩ ⟨101, 0⟩
      (by decide) (by decide) (Or.inl (by decide))⟩

/-- C8: the function has no side effects on caller-visible process
state: running it returns the process state unchanged, and its value is
the pure function of the clock reading. -/
theorem current_time_ms_frame {α : Type} (s : ProcState α) :
    (current_time_ms_run s).2 = s ∧
    (current_time_ms_run s).1 = current_time_ms s.clock :=
  ⟨rfl, rfl⟩

/-- C9: the function always terminates: it is a total function of the
clock reading, so every invocation returns a value. -/
theorem current_time_ms_total (ts : Timespec) :
    ∃ t : Int, current_time_ms ts = t :=
  ⟨current_time_ms ts, rfl⟩

/-- C10: the function is deterministic given the clock state: two
invocations whose clock reads yield the same `(tv_sec, tv_nsec)` pair
return equal timestamps, whatever the rest of the process state is. -/
theorem current_time_ms_deterministic {α β : Type}
    (s1 : ProcState α) (s2 : ProcState β) (h : s1.clock = s2.clock) :
    (current_time_ms_run s1).1 = (current_time_ms_run s2).1 := by
  simp only [current_time_ms_run, h]

theorem current_time_ms_deterministic_witness :
    (current_time_ms_run (ProcState.mk ⟨5, 7⟩ (0 : Nat))).1 =
      (current_time_ms_run (ProcState.mk ⟨5, 7⟩ true)).1 :=
  current_time_ms_deterministic (ProcState.mk ⟨5, 7⟩ (0 : Nat))
    (ProcState.mk ⟨5, 7⟩ true) rfl

end PHPX.Timer
